import Mathlib

/-!
Shallow embedding of the GitHub asset verification script
(src/scripts/verification-config.py) and proofs of its specified
properties.

Modelling conventions:
- Strings are handled as lists of characters (Python operates on code
  points); the wrappers at the API level take Lean strings and use .data.
- The network is a function from endpoint string to an HTTP outcome;
  the URL prefix (host, org, repo) is the same for every call and is
  folded away.  Each API-touching function also returns the list of
  endpoints it called, in order, and the list of lines it printed.
- External library calls that the script does not define are abstracted
  as function parameters: b64utf8 for base64.b64decode(...).decode("utf-8")
  (errors as Except.error, matching the caught exception), reSearch for
  re.search(pattern, text) being non-None, reCI for the same with
  re.IGNORECASE.  The fixed numeric pattern \d+(\.\d+)? used by
  stat_match rules is implemented concretely (numSearch), with \d taken
  as the ASCII digits.
- A Python exception that the script does not catch (iterating a
  non-list payload in search_commits) is modelled as Except.error and
  propagated, mirroring an unhandled fault.
-/

/-- JSON payload as the script consumes it: either an object with string
fields (the contents endpoint, whose "content" field holds base64 text),
or an array of commit objects represented by their commit messages. -/
inductive Payload where
  | obj (fields : List (String × String))
  | arr (commitMsgs : List String)
deriving DecidableEq

/-- Python truthiness of a parsed payload (`not result`): an empty dict or
empty list is falsy, everything else the script sees is truthy. -/
def Payload.truthy : Payload → Bool
  | .obj fs => !fs.isEmpty
  | .arr ms => !ms.isEmpty

/-- Outcome of `requests.get(url)` followed by `.json()`: a response with a
status code and parsed body, or an exception (network, transport or parse),
carrying its message. -/
inductive HttpResult where
  | response (status : Nat) (body : Payload)
  | exn (msg : String)
deriving DecidableEq

/-- The `target_file` sub-dictionary of the configuration. -/
structure TargetFile where
  path : String
  branch : String
deriving DecidableEq

/-- The `commit_verification` sub-dictionary: `max_commits` is optional in
the dictionary (`commit_config.get("max_commits", 10)`). -/
structure CommitVerification where
  msgPattern : String
  maxCommits : Option Nat
deriving DecidableEq

/-- One entry of `content_rules`: the script reads the keys `type`,
`target` and `expected` of every rule. -/
structure ContentRule where
  type : String
  target : String
  expected : String
deriving DecidableEq

/-- The verification configuration dictionary.  A falsy
`commit_verification` (absent or empty) is `none`. -/
structure VerificationConfig where
  targetRepo : String
  targetFile : TargetFile
  requiredStructures : List String
  contentRules : List ContentRule
  commitVerification : Option CommitVerification
deriving DecidableEq

/-- Endpoint string built by `get_repo_file_content`. -/
def contentsEndpoint (filePath branch : String) : String :=
  "contents/" ++ filePath ++ "?ref=" ++ branch

/-- Endpoint string built by `search_commits`. -/
def commitsEndpoint (maxCommits : Nat) : String :=
  "commits?per_page=" ++ toString maxCommits

/-- Core of `call_github_api`: classify one HTTP outcome into
(success flag, optional payload) plus the printed diagnostic lines. -/
def callGithubApiCore (endpoint : String) (r : HttpResult) :
    (Bool × Option Payload) × List String :=
  match r with
  | .response status body =>
    if status = 200 then ((true, some body), [])
    else if status = 404 then
      ((false, none), ["[API提示] " ++ endpoint ++ " 资源未找到（404）"])
    else
      ((false, none), ["[API错误] " ++ endpoint ++ " 状态码：" ++ toString status])
  | .exn e =>
      ((false, none), ["[API异常] 调用 " ++ endpoint ++ " 失败：" ++ e])

/-- `call_github_api` against a network: result, printed lines, endpoints
called. -/
def callGithubApi (endpoint : String) (net : String → HttpResult) :
    (Bool × Option Payload) × List String × List String :=
  ((callGithubApiCore endpoint (net endpoint)).1,
   (callGithubApiCore endpoint (net endpoint)).2, [endpoint])

/-- `result.get("content", "")`: an object payload yields its "content"
field or the empty string; a list payload has no `.get` and raises
(AttributeError, caught by the surrounding try in the script). -/
def getContentField : Payload → Except String String
  | .obj fs => .ok ((List.lookup "content" fs).getD "")
  | .arr _ => .error "AttributeError"

/-- `get_repo_file_content`: fetch, then base64/UTF-8 decode the content
field; decoding errors are caught and reported, yielding none. -/
def getRepoFileContent (b64utf8 : String → Except String String)
    (filePath branch : String) (net : String → HttpResult) :
    Option String × List String × List String :=
  let ep := contentsEndpoint filePath branch
  let res := callGithubApi ep net
  if res.1.1 = false then (none, res.2.1, res.2.2)
  else
    match res.1.2 with
    | none => (none, res.2.1, res.2.2)
    | some p =>
      if p.truthy = false then (none, res.2.1, res.2.2)
      else
        match (getContentField p).bind b64utf8 with
        | .ok s => (some s, res.2.1, res.2.2)
        | .error e =>
            (none, res.2.1 ++ ["[文件解码错误] " ++ filePath ++ "：" ++ e],
             res.2.2)

/-- `search_commits`: fetch recent commits and test each message against
the pattern case-insensitively (reCI abstracts re.search with
re.IGNORECASE).  Iterating a non-empty dict payload reaches
`commit["commit"]` on a string key and raises in Python; that uncaught
exception is modelled as Except.error. -/
def searchCommits (reCI : String → String → Bool) (net : String → HttpResult)
    (pattern : String) (maxCommits : Nat) :
    Except String Bool × List String × List String :=
  let ep := commitsEndpoint maxCommits
  let res := callGithubApi ep net
  if res.1.1 = false then (Except.ok false, res.2.1, res.2.2)
  else
    match res.1.2 with
    | some (Payload.arr ms) =>
        (Except.ok (ms.any (fun m => reCI pattern m)), res.2.1, res.2.2)
    | some (Payload.obj []) => (Except.ok false, res.2.1, res.2.2)
    | some (Payload.obj (_ :: _)) => (Except.error "TypeError", res.2.1, res.2.2)
    | none => (Except.error "TypeError", res.2.1, res.2.2)

/-- Python substring test `needle in haystack`, where the second list is
scanned for an occurrence of the first. -/
def containsSub (needle : List Char) : List Char → Bool
  | [] => needle.isEmpty
  | c :: rest => needle.isPrefixOf (c :: rest) || containsSub needle rest

/-- Substring test on strings (Python `in`). -/
def strIn (needle haystack : String) : Bool :=
  containsSub needle.data haystack.data

/-- Python `content.split("\n")` over the character list. -/
def splitNl : List Char → List (List Char)
  | [] => [[]]
  | c :: rest =>
    if c = '\n' then [] :: splitNl rest
    else
      match splitNl rest with
      | l :: ls => (c :: l) :: ls
      | [] => [[c]]

/-- First match of the pattern \d+(\.\d+)? in a line, with Python
re.search semantics: leftmost start, greedy digit runs, the fractional
part taken only when a dot is immediately followed by a digit.  Python's
\d is modelled as the ASCII digits (the script's data uses only those). -/
def numSearch : List Char → Option (List Char)
  | [] => none
  | c :: rest =>
    if c.isDigit then
      let ds := (c :: rest).takeWhile Char.isDigit
      let tl := (c :: rest).dropWhile Char.isDigit
      some
        (match tl with
         | '.' :: r2 =>
           let fs := r2.takeWhile Char.isDigit
           if fs.isEmpty then ds else ds ++ '.' :: fs
         | _ => ds)
    else numSearch rest

/-- One iteration of the stat_match line loop: the line contains the
target and its first numeric token string-equals the expected text. -/
def statLineMatches (target expectedData : List Char) (line : List Char) : Bool :=
  containsSub target line &&
    match numSearch line with
    | some tok => tok = expectedData
    | none => false

/-- The `matched` flag computed for one content rule inside
`verify_content_accuracy`.  For stat_match the line loop continues past
lines whose first numeric token does not equal `expected`; it stops only
on a success, so `matched` is an any-line existential. -/
def ruleMatched (reSearch : String → String → Bool) (content : List Char)
    (lines : List (List Char)) (rule : ContentRule) : Bool :=
  if rule.type = "stat_match" then
    lines.any (statLineMatches rule.target.data rule.expected.data)
  else if rule.type = "regex_match" then
    reSearch rule.expected (String.mk content)
  else if rule.type = "text_match" then
    containsSub rule.expected.data content
  else false

/-- The rule loop of `verify_content_accuracy`: first failing rule aborts
with its error line; an exhausted loop prints the success line. -/
def verifyContentAccuracyLoop (reSearch : String → String → Bool)
    (content : List Char) (lines : List (List Char)) :
    List ContentRule → Bool × List String
  | [] => (true, ["[成功] 所有内容规则校验通过"])
  | rule :: rest =>
    if ruleMatched reSearch content lines rule then
      verifyContentAccuracyLoop reSearch content lines rest
    else
      (false,
       ["[错误] 内容规则校验失败：" ++ rule.target ++ " 预期 " ++
          rule.expected ++ "，实际未匹配"])

/-- `verify_content_accuracy`: trivially true on an empty rule list,
otherwise the first-failure loop over the rules, on the newline-split
content. -/
def verifyContentAccuracy (reSearch : String → String → Bool)
    (content : String) (config : VerificationConfig) : Bool × List String :=
  let contentRules := config.contentRules
  if contentRules.isEmpty then
    (true, ["[3/4 跳过] 未配置内容验证规则，直接通过"])
  else
    let res := verifyContentAccuracyLoop reSearch content.data
      (splitNl content.data) contentRules
    (res.1,
     ("[3/4] 验证内容准确性：共需校验 " ++ toString contentRules.length ++
        " 条规则...") :: res.2)

/-- The `missing` list built by the loop in `verify_file_structure`. -/
def missingStructures (content : List Char) : List String → List String
  | [] => []
  | struct :: rest =>
    if containsSub struct.data content then missingStructures content rest
    else struct :: missingStructures content rest

/-- `verify_file_structure`: collect every required structure that is not
a substring of the content, fail listing them all at once. -/
def verifyFileStructure (content : String) (config : VerificationConfig) :
    Bool × List String :=
  let requiredStructures := config.requiredStructures
  let m0 := "[2/4] 验证文件结构：共需包含 " ++
    toString requiredStructures.length ++ " 个必需结构..."
  let missing := missingStructures content.data requiredStructures
  if missing.isEmpty = false then
    (false, [m0, "[错误] 缺失必需结构：" ++ String.intercalate ", " missing])
  else (true, [m0, "[成功] 所有必需结构均存在"])

/-- `verify_file_existence`: fetch the configured file; `if not content`
treats both a failed fetch (None) and empty decoded content as absence. -/
def verifyFileExistence (b64utf8 : String → Except String String)
    (config : VerificationConfig) (net : String → HttpResult) :
    (Bool × Option String) × List String × List String :=
  let filePath := config.targetFile.path
  let branch := config.targetFile.branch
  let m0 := "[1/4] 验证文件存在性：" ++ filePath ++ "（分支：" ++ branch ++ "）..."
  let res := getRepoFileContent b64utf8 filePath branch net
  match res.1 with
  | none =>
      ((false, none),
       m0 :: res.2.1 ++
         ["[错误] 文件 " ++ filePath ++ " 在 " ++ branch ++ " 分支中未找到"],
       res.2.2)
  | some c =>
      if c.isEmpty then
        ((false, none),
         m0 :: res.2.1 ++
           ["[错误] 文件 " ++ filePath ++ " 在 " ++ branch ++ " 分支中未找到"],
         res.2.2)
      else
        ((true, some c), m0 :: res.2.1 ++ ["[成功] 文件 " ++ filePath ++ " 存在"],
         res.2.2)

/-- `verify_commit_record`: auto-pass when no commit rule is configured,
otherwise delegate to search_commits (whose possible unhandled exception
propagates). -/
def verifyCommitRecord (reCI : String → String → Bool)
    (config : VerificationConfig) (net : String → HttpResult) :
    Except String Bool × List String × List String :=
  match config.commitVerification with
  | none => (Except.ok true, ["[4/4 跳过] 未配置提交验证规则，直接通过"], [])
  | some commitConfig =>
    let pattern := commitConfig.msgPattern
    let maxCommits := commitConfig.maxCommits.getD 10
    let m0 := "[4/4] 验证提交记录：搜索包含「" ++ pattern ++ "」的最近 " ++
      toString maxCommits ++ " 条提交..."
    let res := searchCommits reCI net pattern maxCommits
    match res.1 with
    | Except.ok found =>
        if found then
          (Except.ok true, m0 :: res.2.1 ++ ["[成功] 找到符合要求的提交记录"],
           res.2.2)
        else
          (Except.ok false, m0 :: res.2.1 ++ ["[错误] 未找到符合要求的提交记录"],
           res.2.2)
    | Except.error e => (Except.error e, m0 :: res.2.1, res.2.2)

/-- Python falsiness of an optional environment string: absent or empty. -/
def isFalsyStr : Option String → Bool
  | none => true
  | some s => s.isEmpty

/-- The 50-character separator line printed by the script. -/
def eq50 : String := String.mk (List.replicate 50 '=')

/-- Opening banner of `run_verification`. -/
def startBanner : List String := [eq50, "开始执行GitHub资产验证", eq50]

/-- The environment-ready line (its print argument ends in a newline). -/
def envReadyMsg (org repo : String) : String :=
  "[环境就绪] 目标仓库：" ++ org ++ "/" ++ repo ++ "\n"

/-- The closing summary printed when every stage has passed. -/
def successMsgs (config : VerificationConfig) (org : String) : List String :=
  ["\n" ++ eq50,
   "✅ 所有验证步骤通过！",
   "验证对象：" ++ config.targetFile.path,
   "目标仓库：" ++ org ++ "/" ++ config.targetRepo,
   "验证分支：" ++ config.targetFile.branch,
   "通过规则：4/4"] ++
  (match config.commitVerification with
   | some cc => ["匹配提交：" ++ cc.msgPattern]
   | none => []) ++
  [eq50]

/-- `run_verification`: the whole pipeline.  Result is the returned
boolean (Except.error models an uncaught exception escaping the script),
plus all printed lines and all endpoints called, in order. -/
def runVerification (b64utf8 : String → Except String String)
    (reSearch reCI : String → String → Bool)
    (githubToken githubOrg : Option String)
    (verificationConfig : VerificationConfig) (net : String → HttpResult) :
    Except String Bool × List String × List String :=
  if isFalsyStr githubToken then
    (Except.ok false,
     startBanner ++ ["[环境错误] 未配置MCP_GITHUB_TOKEN（需在.mcp_env中设置）"], [])
  else if isFalsyStr githubOrg then
    (Except.ok false,
     startBanner ++ ["[环境错误] 未配置GITHUB_EVAL_ORG（需在.mcp_env中设置）"], [])
  else
    let org := githubOrg.getD ""
    let hdr := startBanner ++ [envReadyMsg org verificationConfig.targetRepo]
    let fe := verifyFileExistence b64utf8 verificationConfig net
    if fe.1.1 = false then (Except.ok false, hdr ++ fe.2.1, fe.2.2)
    else
      let content := fe.1.2.getD ""
      let st := verifyFileStructure content verificationConfig
      if st.1 = false then (Except.ok false, hdr ++ fe.2.1 ++ st.2, fe.2.2)
      else
        let ca := verifyContentAccuracy reSearch content verificationConfig
        if ca.1 = false then
          (Except.ok false, hdr ++ fe.2.1 ++ st.2 ++ ca.2, fe.2.2)
        else
          let cr := verifyCommitRecord reCI verificationConfig net
          match cr.1 with
          | Except.error e =>
              (Except.error e, hdr ++ fe.2.1 ++ st.2 ++ ca.2 ++ cr.2.1,
               fe.2.2 ++ cr.2.2)
          | Except.ok commitValid =>
            if commitValid = false then
              (Except.ok false, hdr ++ fe.2.1 ++ st.2 ++ ca.2 ++ cr.2.1,
               fe.2.2 ++ cr.2.2)
            else
              (Except.ok true,
               hdr ++ fe.2.1 ++ st.2 ++ ca.2 ++ cr.2.1 ++
                 successMsgs verificationConfig org,
               fe.2.2 ++ cr.2.2)

/-- The literal VERIFICATION_CONFIG embedded in the script's main block. -/
def VERIFICATION_CONFIG : VerificationConfig :=
  { targetRepo := "example-repo"
    targetFile := { path := "docs/analysis-report.md", branch := "main" }
    requiredStructures :=
      ["# 项目分析报告", "## 执行摘要", "## 详细分析", "| 指标 | 数值 |", "## 结论"]
    contentRules :=
      [{ type := "stat_match", target := "总用户数：", expected := "1000" },
       { type := "regex_match", target := "报告日期",
         expected := "\\d{4}-\\d{2}-\\d{2}" },
       { type := "text_match", target := "审核状态", expected := "审核状态：已批准" }]
    commitVerification := some { msgPattern := "更新分析报告", maxCommits := some 10 } }

/-- The StatMatch semantics as the specification words it (for comparison
with the code's behaviour): the rule is decided on the FIRST line that
contains the target as a substring; it passes iff that line's first
numeric token string-equals the expected value. -/
def statMatchSpec (target expected : String) (lines : List (List Char)) : Bool :=
  match lines.find? (fun line => containsSub target.data line) with
  | none => false
  | some line =>
    match numSearch line with
    | some tok => tok = expected.data
    | none => false

/-- Helper: the rule loop returns true exactly when every rule matches. -/
theorem verifyContentAccuracyLoop_true_iff (reSearch : String → String → Bool)
    (content : List Char) (lines : List (List Char)) (rules : List ContentRule) :
    (verifyContentAccuracyLoop reSearch content lines rules).1 = true ↔
      ∀ r ∈ rules, ruleMatched reSearch content lines r = true := by
  induction rules with
  | nil => simp [verifyContentAccuracyLoop]
  | cons r rest ih =>
    by_cases h : ruleMatched reSearch content lines r = true
    · simp [verifyContentAccuracyLoop, h, ih]
    · simp [verifyContentAccuracyLoop, h]

/-- Helper: the missing-structure loop is the order-preserving filter of
the required structures by non-containment. -/
theorem missingStructures_eq_filter (content : List Char) (l : List String) :
    missingStructures content l = l.filter (fun s => !containsSub s.data content) := by
  induction l with
  | nil => rfl
  | cons s rest ih =>
    by_cases h : containsSub s.data content = true
    · simp [missingStructures, h, ih, List.filter]
    · simp only [Bool.not_eq_true] at h
      simp [missingStructures, h, ih, List.filter]

/-- Helper: unfolding of the stat line test into its two conjuncts. -/
theorem statLineMatches_iff (target e line : List Char) :
    statLineMatches target e line = true ↔
      containsSub target line = true ∧ numSearch line = some e := by
  cases h : numSearch line <;> simp [statLineMatches, h]

/-- A configuration holding exactly the spec's example StatMatch rule. -/
def statExampleConfig : VerificationConfig :=
  { targetRepo := "example-repo"
    targetFile := { path := "docs/analysis-report.md", branch := "main" }
    requiredStructures := []
    contentRules := [{ type := "stat_match", target := "总用户数：", expected := "1000" }]
    commitVerification := none }

/-- C1 (counterexample): on content whose FIRST target-containing line has
numeric token 999 ≠ 1000 but whose second target line has token 1000, the
code passes the stage, while the claim's first-line semantics rejects the
rule — so verify_content_accuracy does not decide the rule on the first
line containing the target. -/
theorem stat_match_first_line_counterexample :
    (verifyContentAccuracy (fun _ _ => false) "总用户数：999\n总用户数：1000"
        statExampleConfig).1 = true ∧
    statMatchSpec "总用户数：" "1000"
        (splitNl ("总用户数：999\n总用户数：1000").data) = false := by
  constructor
  · decide
  · decide

/-- C1 (amended): a StatMatch rule is decided by scanning ALL lines of the
content, not only the first line containing the target: with exactly one
stat_match rule configured, the stage passes iff SOME line contains the
target as a substring and the first numeric token of that line (pattern
\d+(\.\d+)?) string-equals the expected value exactly.  In particular the
line 总用户数：1000 with expected 1000 passes and a lone line
总用户数：1000.5 with the same rule fails. -/
theorem stat_match_scans_all_lines (reSearch : String → String → Bool)
    (content : String) (config : VerificationConfig) (target expected : String)
    (hrules : config.contentRules =
      [{ type := "stat_match", target := target, expected := expected }]) :
    ((verifyContentAccuracy reSearch content config).1 = true ↔
      ∃ line ∈ splitNl content.data,
        containsSub target.data line = true ∧
          numSearch line = some expected.data) ∧
    (verifyContentAccuracy (fun _ _ => false) "总用户数：1000"
        statExampleConfig).1 = true ∧
    (verifyContentAccuracy (fun _ _ => false) "总用户数：1000.5"
        statExampleConfig).1 = false := by
  refine ⟨?_, by decide, by decide⟩
  simp only [verifyContentAccuracy, hrules, List.isEmpty_cons, Bool.false_eq_true,
    if_false, verifyContentAccuracyLoop, ruleMatched]
  by_cases h : (splitNl content.data).any (statLineMatches target.data expected.data) = true
  · simp only [if_true, reduceIte, h]
    simp only [List.any_eq_true, statLineMatches_iff] at h
    simp [verifyContentAccuracyLoop, List.any_eq_true, statLineMatches_iff, h]
  · simp only [Bool.not_eq_true] at h
    simp [h, List.any_eq_true.symm, statLineMatches_iff]
    intro line hline hcont htok
    have : (splitNl content.data).any (statLineMatches target.data expected.data) = true :=
      List.any_eq_true.mpr ⟨line, hline, (statLineMatches_iff _ _ _).mpr ⟨hcont, htok⟩⟩
    simp [h] at this

/-- C1 (witness): the spec's own passing example, 总用户数：1000 against
expected 1000, accepted through the amended characterisation. -/
theorem stat_match_scans_all_lines_witness :
    (verifyContentAccuracy (fun _ _ => false) "总用户数：1000"
        statExampleConfig).1 = true :=
  (stat_match_scans_all_lines (fun _ _ => false) "总用户数：1000"
    statExampleConfig "总用户数：" "1000" rfl).1.mpr (by decide)

/-- C5: verify_file_structure passes iff every required structure string is
a literal substring of the content; on failure the reported missing list is
exactly the order-preserving selection of every missing structure from the
configuration (all at once), and the error line carries all of them. -/
theorem structure_check_reports_all_missing (content : String)
    (config : VerificationConfig) :
    ((verifyFileStructure content config).1 = true ↔
      ∀ s ∈ config.requiredStructures, strIn s content = true) ∧
    missingStructures content.data config.requiredStructures =
      config.requiredStructures.filter (fun s => !strIn s content) ∧
    ((verifyFileStructure content config).1 = false →
      (verifyFileStructure content config).2 =
        ["[2/4] 验证文件结构：共需包含 " ++
           toString config.requiredStructures.length ++ " 个必需结构...",
         "[错误] 缺失必需结构：" ++ String.intercalate ", "
           (config.requiredStructures.filter (fun s => !strIn s content))]) := by
  have hfilter : missingStructures content.data config.requiredStructures =
      config.requiredStructures.filter (fun s => !strIn s content) :=
    missingStructures_eq_filter content.data config.requiredStructures
  have hmain : verifyFileStructure content config =
      if (config.requiredStructures.filter (fun s => !strIn s content)).isEmpty = false
      then
        (false,
         ["[2/4] 验证文件结构：共需包含 " ++
            toString config.requiredStructures.length ++ " 个必需结构...",
          "[错误] 缺失必需结构：" ++ String.intercalate ", "
            (config.requiredStructures.filter (fun s => !strIn s content))])
      else
        (true,
         ["[2/4] 验证文件结构：共需包含 " ++
            toString config.requiredStructures.length ++ " 个必需结构...",
          "[成功] 所有必需结构均存在"]) := by
    simp only [verifyFileStructure, hfilter]
  refine ⟨?_, hfilter, ?_⟩
  · rw [hmain]
    cases hc : (config.requiredStructures.filter (fun s => !strIn s content)).isEmpty with
    | true =>
      rw [if_neg (by simp)]
      simp only [true_iff]
      rw [List.isEmpty_iff, List.filter_eq_nil_iff] at hc
      intro s hs
      have hcs := hc s hs
      simpa using hcs
    | false =>
      rw [if_pos rfl]
      simp only [Bool.false_eq_true, false_iff]
      intro hall
      have hnil : config.requiredStructures.filter (fun s => !strIn s content) = [] :=
        List.filter_eq_nil_iff.mpr (fun a ha => by simp [hall a ha])
      rw [hnil] at hc
      simp at hc
  · intro hfail
    rw [hmain] at hfail ⊢
    cases hc : (config.requiredStructures.filter (fun s => !strIn s content)).isEmpty with
    | true =>
      rw [hc] at hfail
      simp at hfail
    | false =>
      rw [if_pos rfl]

/-- C6: stage 4 evaluates content rules in order and aborts at the first
failing rule with that rule's error line; the rules after the first failure
cannot influence the stage's outcome or output (first-failure behaviour,
unlike stage 3's all-at-once report); and the stage is true only when every
rule matches. -/
theorem content_rules_first_failure (reSearch : String → String → Bool)
    (content : String) (pre post post' : List ContentRule) (r : ContentRule) :
    ((∀ q ∈ pre, ruleMatched reSearch content.data (splitNl content.data) q = true) →
     ruleMatched reSearch content.data (splitNl content.data) r = false →
     (verifyContentAccuracyLoop reSearch content.data (splitNl content.data)
        (pre ++ r :: post) =
        (false, ["[错误] 内容规则校验失败：" ++ r.target ++ " 预期 " ++
            r.expected ++ "，实际未匹配"]) ∧
      verifyContentAccuracyLoop reSearch content.data (splitNl content.data)
        (pre ++ r :: post) =
        verifyContentAccuracyLoop reSearch content.data (splitNl content.data)
          (pre ++ r :: post'))) ∧
    (∀ config : VerificationConfig,
      (verifyContentAccuracy reSearch content config).1 = true ↔
        ∀ q ∈ config.contentRules,
          ruleMatched reSearch content.data (splitNl content.data) q = true) := by
  constructor
  · intro hpre hr
    have key : ∀ post'' : List ContentRule,
        verifyContentAccuracyLoop reSearch content.data (splitNl content.data)
          (pre ++ r :: post'') =
          (false, ["[错误] 内容规则校验失败：" ++ r.target ++ " 预期 " ++
              r.expected ++ "，实际未匹配"]) := by
      intro post''
      induction pre with
      | nil => simp [verifyContentAccuracyLoop, hr]
      | cons q rest ih =>
        have hq : ruleMatched reSearch content.data (splitNl content.data) q = true :=
          hpre q (List.mem_cons_self q rest)
        have ih' := ih (fun p hp => hpre p (List.mem_cons_of_mem q hp))
        simpa [verifyContentAccuracyLoop, hq] using ih'
    exact ⟨key post, (key post).trans (key post').symm⟩
  · intro config
    by_cases h : config.contentRules.isEmpty = true
    · rw [List.isEmpty_iff] at h
      simp [verifyContentAccuracy, h]
    · simp only [Bool.not_eq_true] at h
      simp only [verifyContentAccuracy, h, Bool.false_eq_true, reduceIte]
      exact verifyContentAccuracyLoop_true_iff reSearch content.data
        (splitNl content.data) config.contentRules

/-- C6 (witness): with no preceding rules, a failing first rule yields the
stage failure with that rule's error line, and the trailing rules are
irrelevant (here [] versus a nonempty tail). -/
theorem content_rules_first_failure_witness :
    verifyContentAccuracyLoop (fun _ _ => false) "x".data (splitNl "x".data)
      ([] ++ ({ type := "text_match", target := "审核状态",
                expected := "审核状态：已批准" } : ContentRule) ::
        [{ type := "text_match", target := "t", expected := "x" }]) =
      (false, ["[错误] 内容规则校验失败：" ++ "审核状态" ++ " 预期 " ++
          "审核状态：已批准" ++ "，实际未匹配"]) ∧
    verifyContentAccuracyLoop (fun _ _ => false) "x".data (splitNl "x".data)
      ([] ++ ({ type := "text_match", target := "审核状态",
                expected := "审核状态：已批准" } : ContentRule) ::
        [{ type := "text_match", target := "t", expected := "x" }]) =
      verifyContentAccuracyLoop (fun _ _ => false) "x".data (splitNl "x".data)
        ([] ++ ({ type := "text_match", target := "审核状态",
                  expected := "审核状态：已批准" } : ContentRule) :: []) :=
  (content_rules_first_failure (fun _ _ => false) "x" []
      [{ type := "text_match", target := "t", expected := "x" }] []
      { type := "text_match", target := "审核状态", expected := "审核状态：已批准" }).1
    (by simp) (by decide)

/-- C10: a content rule whose type tag is none of stat_match, regex_match
or text_match leaves matched false, so the stage returns false for any
configuration containing such a rule (it is not skipped, and the stage
still returns a boolean rather than raising). -/
theorem unknown_rule_type_fails_stage (reSearch : String → String → Bool)
    (content : String) (config : VerificationConfig) (r : ContentRule)
    (hmem : r ∈ config.contentRules)
    (h1 : r.type ≠ "stat_match") (h2 : r.type ≠ "regex_match")
    (h3 : r.type ≠ "text_match") :
    (verifyContentAccuracy reSearch content config).1 = false := by
  have hr : ruleMatched reSearch content.data (splitNl content.data) r = false := by
    simp [ruleMatched, h1, h2, h3]
  have hne : config.contentRules.isEmpty = false := by
    cases hc : config.contentRules with
    | nil => rw [hc] at hmem; simp at hmem
    | cons a l => simp
  simp only [verifyContentAccuracy, hne, Bool.false_eq_true, reduceIte]
  cases hb : (verifyContentAccuracyLoop reSearch content.data
      (splitNl content.data) config.contentRules).1 with
  | false => rfl
  | true =>
    have hall := (verifyContentAccuracyLoop_true_iff reSearch content.data
      (splitNl content.data) config.contentRules).mp hb
    rw [hall r hmem] at hr
    exact absurd hr (by simp)

/-- C10 (witness): the stage fails on a configuration holding a rule with
the unknown type tag enum_match. -/
theorem unknown_rule_type_fails_stage_witness :
    (verifyContentAccuracy (fun _ _ => true) "总用户数：1000"
      { targetRepo := "example-repo"
        targetFile := { path := "docs/analysis-report.md", branch := "main" }
        requiredStructures := []
        contentRules := [{ type := "enum_match", target := "总用户数：",
                           expected := "1000" }]
        commitVerification := none }).1 = false :=
  unknown_rule_type_fails_stage (fun _ _ => true) "总用户数：1000" _
    { type := "enum_match", target := "总用户数：", expected := "1000" }
    (List.mem_singleton_self _) (by decide) (by decide) (by decide)

/-- C5 (witness): on content containing none of the required structures,
the stage fails and the error line lists every missing structure at once. -/
theorem structure_check_reports_all_missing_witness :
    (verifyFileStructure "abc" VERIFICATION_CONFIG).2 =
      ["[2/4] 验证文件结构：共需包含 " ++
         toString VERIFICATION_CONFIG.requiredStructures.length ++ " 个必需结构...",
       "[错误] 缺失必需结构：" ++ String.intercalate ", "
         (VERIFICATION_CONFIG.requiredStructures.filter (fun s => !strIn s "abc"))] :=
  (structure_check_reports_all_missing "abc" VERIFICATION_CONFIG).2.2 (by decide)

/-- C7: call_github_api succeeds with the parsed payload exactly on HTTP
200; on 404, on any other status and on any caught exception it returns
failure with no payload and prints a reason.  It is a total function of
the classified outcome, so no error reaches its caller. -/
theorem api_outcome_classification (endpoint : String) (r : HttpResult) :
    ((callGithubApiCore endpoint r).1.1 = true ↔
      ∃ body, r = HttpResult.response 200 body ∧
        (callGithubApiCore endpoint r).1.2 = some body) ∧
    ((∀ body, r ≠ HttpResult.response 200 body) →
      (callGithubApiCore endpoint r).1 = (false, none) ∧
      (callGithubApiCore endpoint r).2 ≠ []) := by
  constructor
  · cases r with
    | response s body =>
      by_cases hs : s = 200
      · subst hs
        simp [callGithubApiCore]
      · by_cases h4 : s = 404
        · subst h4
          simp [callGithubApiCore]
        · simp [callGithubApiCore, hs, h4]
    | exn e => simp [callGithubApiCore]
  · intro h
    cases r with
    | response s body =>
      have hs : s ≠ 200 := by
        intro hs
        subst hs
        exact h body rfl
      by_cases h4 : s = 404
      · subst h4
        simp [callGithubApiCore]
      · simp [callGithubApiCore, hs, h4]
    | exn e => simp [callGithubApiCore]

/-- C7 (witness): a 200 response carries its payload out, and a 404 is a
payload-free failure with a logged line. -/
theorem api_outcome_classification_witness :
    ((callGithubApiCore "commits?per_page=10"
        (HttpResult.response 200 (Payload.arr ["更新分析报告"]))).1.1 = true) ∧
    (callGithubApiCore "commits?per_page=10"
        (HttpResult.response 404 (Payload.obj []))).1 = (false, none) :=
  ⟨(api_outcome_classification "commits?per_page=10"
      (HttpResult.response 200 (Payload.arr ["更新分析报告"]))).1.mpr
      ⟨Payload.arr ["更新分析报告"], rfl, rfl⟩,
   ((api_outcome_classification "commits?per_page=10"
      (HttpResult.response 404 (Payload.obj []))).2 (by intro body h; cases h)).1⟩

/-- C8: search_commits returns true exactly when the commits call succeeds
(HTTP 200 with a commits array) and some returned commit message matches
the pattern case-insensitively; it returns false when the call fails or no
message matches. -/
theorem commit_search_semantics (reCI : String → String → Bool)
    (net : String → HttpResult) (pattern : String) (maxCommits : Nat) :
    (∀ ms, net (commitsEndpoint maxCommits) =
        HttpResult.response 200 (Payload.arr ms) →
      ((searchCommits reCI net pattern maxCommits).1 =
          Except.ok (ms.any (fun m => reCI pattern m)) ∧
       ((searchCommits reCI net pattern maxCommits).1 = Except.ok true ↔
          ∃ m ∈ ms, reCI pattern m = true))) ∧
    ((∀ body, net (commitsEndpoint maxCommits) ≠
        HttpResult.response 200 body) →
      (searchCommits reCI net pattern maxCommits).1 = Except.ok false) := by
  constructor
  · intro ms hnet
    have h1 : (searchCommits reCI net pattern maxCommits).1 =
        Except.ok (ms.any (fun m => reCI pattern m)) := by
      simp [searchCommits, callGithubApi, callGithubApiCore, hnet]
    refine ⟨h1, ?_⟩
    rw [h1]
    simp [List.any_eq_true]
  · intro h
    rcases hx : net (commitsEndpoint maxCommits) with ⟨s, body⟩ | e
    · have hs : s ≠ 200 := by
        intro hs
        subst hs
        exact h body hx
      by_cases h4 : s = 404
      · subst h4
        simp [searchCommits, callGithubApi, callGithubApiCore, hx]
      · simp [searchCommits, callGithubApi, callGithubApiCore, hx, hs, h4]
    · simp [searchCommits, callGithubApi, callGithubApiCore, hx]

/-- C8 (witness): the spec's example — pattern 更新分析报告 against a list
holding the message Update: 更新分析报告 v2 — passes (here with substring
containment standing in for the case-insensitive regex匹配 function). -/
theorem commit_search_semantics_witness :
    (searchCommits (fun p m => strIn p m)
        (fun _ => HttpResult.response 200
          (Payload.arr ["Update: 更新分析报告 v2"])) "更新分析报告" 10).1 =
      Except.ok true :=
  (((commit_search_semantics (fun p m => strIn p m)
      (fun _ => HttpResult.response 200 (Payload.arr ["Update: 更新分析报告 v2"]))
      "更新分析报告" 10).1 ["Update: 更新分析报告 v2"] rfl).2).mpr (by decide)

/-- C9: an empty decoded content (in particular a 200 payload lacking the
content field, whose default empty string base64-decodes to the empty
string) makes verify_file_existence fail exactly as a missing file does:
same (false, none) result and the same 文件未找到 error line. -/
theorem empty_content_treated_as_absent (b64utf8 : String → Except String String)
    (config : VerificationConfig) (net : String → HttpResult) :
    (∀ fields, b64utf8 "" = Except.ok "" →
      net (contentsEndpoint config.targetFile.path config.targetFile.branch) =
        HttpResult.response 200 (Payload.obj fields) →
      fields ≠ [] → List.lookup "content" fields = none →
      (getRepoFileContent b64utf8 config.targetFile.path
          config.targetFile.branch net).1 = some "") ∧
    ((getRepoFileContent b64utf8 config.targetFile.path
        config.targetFile.branch net).1 = some "" ∨
     (getRepoFileContent b64utf8 config.targetFile.path
        config.targetFile.branch net).1 = none →
      verifyFileExistence b64utf8 config net =
        ((false, none),
         ("[1/4] 验证文件存在性：" ++ config.targetFile.path ++ "（分支：" ++
            config.targetFile.branch ++ "）...") ::
           (getRepoFileContent b64utf8 config.targetFile.path
              config.targetFile.branch net).2.1 ++
           ["[错误] 文件 " ++ config.targetFile.path ++ " 在 " ++
              config.targetFile.branch ++ " 分支中未找到"],
         (getRepoFileContent b64utf8 config.targetFile.path
            config.targetFile.branch net).2.2)) := by
  constructor
  · intro fields hb64 hnet hne hlookup
    have hfe : fields.isEmpty = false := by
      cases fields with
      | nil => exact absurd rfl hne
      | cons a l => simp
    simp [getRepoFileContent, callGithubApi, callGithubApiCore, hnet,
      Payload.truthy, hfe, getContentField, hlookup, Except.bind, hb64]
  · intro h
    rcases h with h | h
    · simp [verifyFileExistence, h]
      rfl
    · simp [verifyFileExistence, h]

/-- C9 (witness): a truthy 200 object payload without a content field,
decoded by a base64/UTF-8 decoder that maps the empty string to itself,
yields the same failure as a 404 would. -/
theorem empty_content_treated_as_absent_witness :
    verifyFileExistence (fun s => Except.ok s) VERIFICATION_CONFIG
        (fun _ => HttpResult.response 200 (Payload.obj [("name", "report.md")])) =
      ((false, none),
       ("[1/4] 验证文件存在性：" ++ VERIFICATION_CONFIG.targetFile.path ++ "（分支：" ++
          VERIFICATION_CONFIG.targetFile.branch ++ "）...") ::
         (getRepoFileContent (fun s => Except.ok s) VERIFICATION_CONFIG.targetFile.path
            VERIFICATION_CONFIG.targetFile.branch
            (fun _ => HttpResult.response 200 (Payload.obj [("name", "report.md")]))).2.1 ++
         ["[错误] 文件 " ++ VERIFICATION_CONFIG.targetFile.path ++ " 在 " ++
            VERIFICATION_CONFIG.targetFile.branch ++ " 分支中未找到"],
       (getRepoFileContent (fun s => Except.ok s) VERIFICATION_CONFIG.targetFile.path
          VERIFICATION_CONFIG.targetFile.branch
          (fun _ => HttpResult.response 200 (Payload.obj [("name", "report.md")]))).2.2) :=
  (empty_content_treated_as_absent (fun s => Except.ok s) VERIFICATION_CONFIG
      (fun _ => HttpResult.response 200 (Payload.obj [("name", "report.md")]))).2
    (Or.inl ((empty_content_treated_as_absent (fun s => Except.ok s) VERIFICATION_CONFIG
      (fun _ => HttpResult.response 200 (Payload.obj [("name", "report.md")]))).1
      [("name", "report.md")] rfl rfl (by decide) (by decide)))

/-- Helper: the commits endpoint answers with a body the script can
iterate (an array, an empty object, a non-200 status, or an exception);
a non-empty object at 200 is the one shape that would raise. -/
def commitsWellTyped (net : String → HttpResult) (maxCommits : Nat) : Bool :=
  match net (commitsEndpoint maxCommits) with
  | HttpResult.response 200 (Payload.obj (_ :: _)) => false
  | _ => true

/-- Helper: under a well-typed commits endpoint, search_commits never
raises. -/
theorem searchCommits_no_error (reCI : String → String → Bool)
    (net : String → HttpResult) (pattern : String) (maxCommits : Nat)
    (h : commitsWellTyped net maxCommits = true) :
    ∀ e, (searchCommits reCI net pattern maxCommits).1 ≠ Except.error e := by
  intro e
  rcases hx : net (commitsEndpoint maxCommits) with ⟨s, body⟩ | e'
  · by_cases hs : s = 200
    · subst hs
      cases body with
      | obj fields =>
        cases fields with
        | nil => simp [searchCommits, callGithubApi, callGithubApiCore, hx]
        | cons a l =>
          rw [commitsWellTyped, hx] at h
          simp at h
      | arr ms => simp [searchCommits, callGithubApi, callGithubApiCore, hx]
    · by_cases h4 : s = 404
      · subst h4
        simp [searchCommits, callGithubApi, callGithubApiCore, hx]
      · simp [searchCommits, callGithubApi, callGithubApiCore, hx, hs, h4]
  · simp [searchCommits, callGithubApi, callGithubApiCore, hx]

/-- Helper: verify_commit_record never raises when either no commit rule
is configured or the commits endpoint is well typed. -/
theorem verifyCommitRecord_no_error (reCI : String → String → Bool)
    (config : VerificationConfig) (net : String → HttpResult)
    (h : ∀ cc, config.commitVerification = some cc →
      commitsWellTyped net (cc.maxCommits.getD 10) = true) :
    ∀ e, (verifyCommitRecord reCI config net).1 ≠ Except.error e := by
  intro e
  cases hcc : config.commitVerification with
  | none => simp [verifyCommitRecord, hcc]
  | some cc =>
    have hwt := h cc hcc
    have hse := searchCommits_no_error reCI net cc.msgPattern
      (cc.maxCommits.getD 10) hwt
    simp only [verifyCommitRecord, hcc]
    rcases hs : (searchCommits reCI net cc.msgPattern (cc.maxCommits.getD 10)).1
      with e'' | found
    · exact absurd hs (by intro hcon; exact hse e'' hcon)
    · cases found <;> simp [hs]

/-- Helper: if the commit stage does not raise, the pipeline result is a
boolean, never a propagated fault. -/
theorem runVerification_result_ok (b64utf8 : String → Except String String)
    (reSearch reCI : String → String → Bool) (token org : Option String)
    (config : VerificationConfig) (net : String → HttpResult)
    (h : ∀ e, (verifyCommitRecord reCI config net).1 ≠ Except.error e) :
    ∃ b, (runVerification b64utf8 reSearch reCI token org config net).1 =
      Except.ok b := by
  simp only [runVerification]
  cases ht : isFalsyStr token with
  | true => exact ⟨false, by simp⟩
  | false =>
    cases ho : isFalsyStr org with
    | true => exact ⟨false, by simp⟩
    | false =>
      simp only [Bool.false_eq_true, reduceIte]
      by_cases hfe : (verifyFileExistence b64utf8 config net).1.1 = false
      · exact ⟨false, by simp [hfe]⟩
      · simp only [hfe, reduceIte]
        by_cases hst : (verifyFileStructure
            ((verifyFileExistence b64utf8 config net).1.2.getD "") config).1 = false
        · exact ⟨false, by simp [hst]⟩
        · simp only [hst, reduceIte]
          by_cases hca : (verifyContentAccuracy reSearch
              ((verifyFileExistence b64utf8 config net).1.2.getD "") config).1 = false
          · exact ⟨false, by simp [hca]⟩
          · simp only [hca, reduceIte]
            rcases hcr : (verifyCommitRecord reCI config net).1 with e | b
            · exact absurd hcr (by intro hcon; exact h e hcon)
            · cases b with
              | false => exact ⟨false, by simp⟩
              | true => exact ⟨true, by simp⟩

/-- C2: an empty content-rule list makes stage 4 pass trivially; an absent
commit rule makes stage 5 pass trivially with zero commits calls; and in
either kind of configuration the pipeline returns a boolean rather than
letting a fault propagate (for a configured commit rule, under the
well-typed commits interface the script is specified against). -/
theorem empty_rule_sets_trivially_pass (b64utf8 : String → Except String String)
    (reSearch reCI : String → String → Bool) (content : String)
    (token org : Option String) (config : VerificationConfig)
    (net : String → HttpResult) :
    (config.contentRules = [] →
      verifyContentAccuracy reSearch content config =
        (true, ["[3/4 跳过] 未配置内容验证规则，直接通过"])) ∧
    (config.commitVerification = none →
      verifyCommitRecord reCI config net =
        (Except.ok true, ["[4/4 跳过] 未配置提交验证规则，直接通过"], []) ∧
      ∃ b, (runVerification b64utf8 reSearch reCI token org config net).1 =
        Except.ok b) ∧
    (∀ cc, config.commitVerification = some cc →
      commitsWellTyped net (cc.maxCommits.getD 10) = true →
      ∃ b, (runVerification b64utf8 reSearch reCI token org config net).1 =
        Except.ok b) := by
  refine ⟨?_, ?_, ?_⟩
  · intro h
    simp [verifyContentAccuracy, h]
  · intro h
    refine ⟨by simp [verifyCommitRecord, h], ?_⟩
    exact runVerification_result_ok b64utf8 reSearch reCI token org config net
      (verifyCommitRecord_no_error reCI config net
        (fun cc hcc => by rw [h] at hcc; cases hcc))
  · intro cc hcc hwt
    exact runVerification_result_ok b64utf8 reSearch reCI token org config net
      (verifyCommitRecord_no_error reCI config net
        (fun cc' hcc' => by rw [hcc] at hcc'; cases hcc'; exact hwt))

/-- C2 (witness): a configuration with no content rules and no commit rule
passes stages 4 and 5 trivially and the pipeline yields a boolean. -/
theorem empty_rule_sets_trivially_pass_witness :
    (verifyContentAccuracy (fun _ _ => false) "内容"
        { targetRepo := "example-repo"
          targetFile := { path := "docs/analysis-report.md", branch := "main" }
          requiredStructures := []
          contentRules := []
          commitVerification := none } =
      (true, ["[3/4 跳过] 未配置内容验证规则，直接通过"])) ∧
    (verifyCommitRecord (fun _ _ => false)
        { targetRepo := "example-repo"
          targetFile := { path := "docs/analysis-report.md", branch := "main" }
          requiredStructures := []
          contentRules := []
          commitVerification := none }
        (fun _ => HttpResult.response 404 (Payload.obj [])) =
      (Except.ok true, ["[4/4 跳过] 未配置提交验证规则，直接通过"], []) ∧
     ∃ b, (runVerification (fun s => Except.ok s) (fun _ _ => false) (fun _ _ => false)
        (some "token") (some "org")
        { targetRepo := "example-repo"
          targetFile := { path := "docs/analysis-report.md", branch := "main" }
          requiredStructures := []
          contentRules := []
          commitVerification := none }
        (fun _ => HttpResult.response 404 (Payload.obj []))).1 = Except.ok b) :=
  ⟨(empty_rule_sets_trivially_pass (fun s => Except.ok s) (fun _ _ => false)
      (fun _ _ => false) "内容" (some "token") (some "org") _
      (fun _ => HttpResult.response 404 (Payload.obj []))).1 rfl,
   (empty_rule_sets_trivially_pass (fun s => Except.ok s) (fun _ _ => false)
      (fun _ _ => false) "内容" (some "token") (some "org") _
      (fun _ => HttpResult.response 404 (Payload.obj []))).2.1 rfl⟩

/-- C3: a missing or empty token, or a missing or empty org, makes
run_verification return failure with an empty list of endpoints called —
the run fails before any network call. -/
theorem missing_credentials_fail_before_network
    (b64utf8 : String → Except String String)
    (reSearch reCI : String → String → Bool) (token org : Option String)
    (config : VerificationConfig) (net : String → HttpResult)
    (h : isFalsyStr token = true ∨ isFalsyStr org = true) :
    ∃ msgs, runVerification b64utf8 reSearch reCI token org config net =
      (Except.ok false, msgs, []) := by
  rcases h with h | h
  · exact ⟨startBanner ++ ["[环境错误] 未配置MCP_GITHUB_TOKEN（需在.mcp_env中设置）"],
      by simp [runVerification, h]⟩
  · cases ht : isFalsyStr token with
    | true =>
      exact ⟨startBanner ++ ["[环境错误] 未配置MCP_GITHUB_TOKEN（需在.mcp_env中设置）"],
        by simp [runVerification, ht]⟩
    | false =>
      exact ⟨startBanner ++ ["[环境错误] 未配置GITHUB_EVAL_ORG（需在.mcp_env中设置）"],
        by simp [runVerification, ht, h]⟩

/-- C3 (witness): an absent token credential fails the run with zero
endpoints called. -/
theorem missing_credentials_fail_before_network_witness :
    ∃ msgs, runVerification (fun s => Except.ok s) (fun _ _ => false)
        (fun _ _ => false) none (some "org") VERIFICATION_CONFIG
        (fun _ => HttpResult.response 404 (Payload.obj [])) =
      (Except.ok false, msgs, []) :=
  missing_credentials_fail_before_network (fun s => Except.ok s)
    (fun _ _ => false) (fun _ _ => false) none (some "org") VERIFICATION_CONFIG
    (fun _ => HttpResult.response 404 (Payload.obj [])) (Or.inl rfl)

/-- Helper: get_repo_file_content always performs exactly the one contents
call. -/
theorem getRepoFileContent_calls (b64utf8 : String → Except String String)
    (filePath branch : String) (net : String → HttpResult) :
    (getRepoFileContent b64utf8 filePath branch net).2.2 =
      [contentsEndpoint filePath branch] := by
  simp only [getRepoFileContent, callGithubApi]
  split
  · rfl
  · split
    · rfl
    · split
      · rfl
      · split
        · rfl
        · rfl

/-- Helper: verify_file_existence always performs exactly the one contents
call. -/
theorem verifyFileExistence_calls (b64utf8 : String → Except String String)
    (config : VerificationConfig) (net : String → HttpResult) :
    (verifyFileExistence b64utf8 config net).2.2 =
      [contentsEndpoint config.targetFile.path config.targetFile.branch] := by
  simp only [verifyFileExistence]
  split
  · exact getRepoFileContent_calls b64utf8 _ _ net
  · split
    · exact getRepoFileContent_calls b64utf8 _ _ net
    · exact getRepoFileContent_calls b64utf8 _ _ net

/-- C4: when the fetch stage yields absent content, run_verification
returns false whatever the other configured rules are, its output stops
with the file stage's messages (no structure, content or commit stage
banner is ever printed), and the only endpoint called is the contents one
(never the commits endpoint). -/
theorem fetch_failure_stops_pipeline (b64utf8 : String → Except String String)
    (reSearch reCI : String → String → Bool) (token org : Option String)
    (config : VerificationConfig) (net : String → HttpResult)
    (htok : isFalsyStr token = false) (horg : isFalsyStr org = false)
    (hfetch : (getRepoFileContent b64utf8 config.targetFile.path
        config.targetFile.branch net).1 = none) :
    runVerification b64utf8 reSearch reCI token org config net =
      (Except.ok false,
       startBanner ++ [envReadyMsg (org.getD "") config.targetRepo] ++
         (verifyFileExistence b64utf8 config net).2.1,
       [contentsEndpoint config.targetFile.path config.targetFile.branch]) := by
  have hfe : (verifyFileExistence b64utf8 config net).1.1 = false := by
    simp [verifyFileExistence, hfetch]
  have hcalls := verifyFileExistence_calls b64utf8 config net
  simp [runVerification, htok, horg, hfe, hcalls]

/-- C4 (witness): a network answering 404 everywhere fails the pipeline at
the fetch stage, on the full literal configuration, with only the contents
endpoint called. -/
theorem fetch_failure_stops_pipeline_witness :
    runVerification (fun s => Except.ok s) (fun _ _ => true) (fun _ _ => true)
        (some "token") (some "org") VERIFICATION_CONFIG
        (fun _ => HttpResult.response 404 (Payload.obj [])) =
      (Except.ok false,
       startBanner ++ [envReadyMsg ((some "org" : Option String).getD "")
           VERIFICATION_CONFIG.targetRepo] ++
         (verifyFileExistence (fun s => Except.ok s) VERIFICATION_CONFIG
           (fun _ => HttpResult.response 404 (Payload.obj []))).2.1,
       [contentsEndpoint VERIFICATION_CONFIG.targetFile.path
          VERIFICATION_CONFIG.targetFile.branch]) :=
  fetch_failure_stops_pipeline (fun s => Except.ok s) (fun _ _ => true)
    (fun _ _ => true) (some "token") (some "org") VERIFICATION_CONFIG
    (fun _ => HttpResult.response 404 (Payload.obj [])) rfl rfl (by decide)
